import Mathlib

/-!
Verification of the tool-calling orchestration of an OpenWeatherMap MCP
client/server pair.

The embedding follows `src/client.py` and `src/server.py`:

* `process_conversation` (client.py, lines 100-169) is modelled as a pure
  recursive function over an explicit conversation log (`List Turn`),
  parametrised by an `Oracle` bundling the three effectful collaborators the
  loop calls: the model provider (`openai_client.chat.completions.create`,
  indexed by the iteration at which it is queried), the tool provider
  (`session.call_tool`) and the JSON argument parser (`json.loads`).
  Each collaborator returns `Except String _`: `.error e` models a raised
  Python exception carrying message `e`.
* A raised exception is modelled by the `Except` error channel; since the
  Python `messages` list is mutated in place, the error value carries the
  log as accumulated at the raise point.
* `convert_mcp_tools_to_openai` (client.py, lines 172-196) is the catalog
  adapter.
* The `main` REPL (client.py, lines 21-97) and the `__main__` guard
  (lines 199-207) are modelled by `main_loop` / `run_client`.
* `get_forecast`'s request-parameter construction (server.py, lines 146-156)
  is modelled by `forecast_request_params`.
-/

/-- Role tag of one message in the conversation history. -/
inductive Role where
  | system
  | user
  | assistant
  | tool
deriving DecidableEq, Repr

/-- The `function` field of an OpenAI tool call: name plus the raw JSON
string of arguments (`tool_call.function.arguments` is a string that
`json.loads` must parse). -/
structure ToolCallFunction where
  name : String
  arguments : String
deriving DecidableEq, Repr

/-- One tool call requested by the model (`tool_call.id`,
`tool_call.function`). -/
structure ToolCall where
  id : String
  function : ToolCallFunction
deriving DecidableEq, Repr

/-- One entry of the `messages` list. `content` is `none` for a null
content; `tool_calls` is the (possibly empty) list of requested calls;
`tool_call_id` is set only on tool turns. -/
structure Turn where
  role : Role
  content : Option String
  tool_calls : List ToolCall
  tool_call_id : Option String
deriving DecidableEq, Repr

/-- The message part of a chat-completion response
(`response.choices[0].message`). -/
structure AssistantMessage where
  content : Option String
  tool_calls : List ToolCall
deriving DecidableEq, Repr

/-- One content element of an MCP tool result (`result.content[i]`),
reduced to its text. -/
structure ContentElem where
  text : String
deriving DecidableEq, Repr

/-- The result of `session.call_tool`: zero or more content elements. -/
structure CallToolResult where
  content : List ContentElem
deriving DecidableEq, Repr

/-- Parsed tool-call arguments (the dict produced by `json.loads`),
modelled as key-value pairs. -/
abbrev Args := List (String × String)

/-- The effectful collaborators of `process_conversation`.  `model i msgs`
is the chat-completion response to the `i`-th query of one
`process_conversation` run with history `msgs`; `call_tool` is the MCP
session's tool invocation; `json_loads` is the argument parser.  `.error e`
models a raised exception with message `e`. -/
structure Oracle where
  model : Nat → List Turn → Except String AssistantMessage
  call_tool : String → Args → Except String CallToolResult
  json_loads : String → Except String Args

/-- Python truthiness-based `x or default` on a nullable string: `None` and
`""` both fall back to the default. -/
def py_or (s : Option String) (default : String) : String :=
  match s with
  | some s => if s = "" then default else s
  | none => default

/-- The assistant turn appended at client.py lines 128-132. -/
def assistant_turn (am : AssistantMessage) : Turn :=
  { role := .assistant, content := am.content, tool_calls := am.tool_calls,
    tool_call_id := none }

/-- The tool turn appended at client.py lines 162-166. -/
def tool_turn (id content : String) : Turn :=
  { role := .tool, content := some content, tool_calls := [],
    tool_call_id := some id }

/-- Fallback returned when the model yields no tool calls and empty/absent
content (client.py line 136). -/
def no_response_fallback : String := "Извините, я не смог сформировать ответ."

/-- Fallback returned when the iteration budget is exhausted
(client.py line 169). -/
def too_long_fallback : String := "Извините, обработка заняла слишком много времени."

/-- Placeholder recorded when `result.content` is empty
(client.py line 156). -/
def empty_result_text : String := "Инструмент выполнен, но результат пуст"

/-- Prefix of the failure text produced by the `except` clause at
client.py line 159. -/
def tool_error_text (e : String) : String := "Ошибка при вызове инструмента: " ++ e

/-- Reduction of one tool invocation to a text outcome
(client.py lines 149-159): a raised provider error is caught and turned
into a failure text; a success reduces to the first content element's text,
or to the empty-result placeholder when there are no elements. -/
def tool_outcome (o : Oracle) (name : String) (args : Args) : String :=
  match o.call_tool name args with
  | .ok result =>
      if ¬ result.content.isEmpty then
        match result.content with
        | c :: _ => c.text
        | [] => "Нет результата"
      else empty_result_text
  | .error e => tool_error_text e

/-- The `for tool_call in assistant_message.tool_calls` body
(client.py lines 141-166).  `json.loads` runs OUTSIDE the `try` block, so
its failure propagates (is not reduced to a failure text); only the
`session.call_tool` request is guarded.  On success returns the log with
one tool turn appended per processed call; on a raise, the error carries
the log as accumulated so far. -/
def process_tool_calls (o : Oracle) :
    List ToolCall → List Turn → Except (String × List Turn) (List Turn)
  | [], msgs => .ok msgs
  | tc :: rest, msgs =>
      match o.json_loads tc.function.arguments with
      | .error e => .error (e, msgs)
      | .ok function_args =>
          let tool_result := tool_outcome o tc.function.name function_args
          process_tool_calls o rest (msgs ++ [tool_turn tc.id tool_result])

/-- The `for iteration in range(max_iterations)` loop of
`process_conversation` (client.py lines 115-169), with `fuel` iterations
remaining and `iteration` queries already issued.  On success returns the
final answer string together with the final log. -/
def conversation_loop (o : Oracle) :
    Nat → Nat → List Turn → Except (String × List Turn) (String × List Turn)
  | 0, _, msgs => .ok (too_long_fallback, msgs)
  | fuel + 1, iteration, msgs =>
      match o.model iteration msgs with
      | .error e => .error (e, msgs)
      | .ok assistant_message =>
          let msgs := msgs ++ [assistant_turn assistant_message]
          if assistant_message.tool_calls.isEmpty then
            .ok (py_or assistant_message.content no_response_fallback, msgs)
          else
            match process_tool_calls o assistant_message.tool_calls msgs with
            | .error em => .error em
            | .ok msgs => conversation_loop o fuel (iteration + 1) msgs

/-- `max_iterations` (client.py line 113). -/
def max_iterations : Nat := 5

/-- `process_conversation` (client.py lines 100-169). -/
def process_conversation (o : Oracle) (msgs : List Turn) :
    Except (String × List Turn) (String × List Turn) :=
  conversation_loop o max_iterations 0 msgs

/-! ### Tool catalog adapter (client.py lines 172-196) -/

/-- A JSON input schema, passed through verbatim by the adapter; its
internal structure is irrelevant here, so it is kept as raw text. -/
abbrev Schema := String

/-- One MCP tool descriptor as listed by `session.list_tools()`:
`tool.name`, `tool.description` (nullable) and `tool.inputSchema`. -/
structure MCPTool where
  name : String
  description : Option String
  inputSchema : Schema
deriving DecidableEq, Repr

/-- The `function` part of an OpenAI tool spec. -/
structure OpenAIFunction where
  name : String
  description : String
  parameters : Schema
deriving DecidableEq, Repr

/-- One OpenAI tool spec (`{"type": "function", "function": {...}}`). -/
structure OpenAITool where
  type : String
  function : OpenAIFunction
deriving DecidableEq, Repr

/-- Placeholder description for a tool without one (client.py line 190). -/
def no_description_placeholder : String := "Инструмент без описания"

/-- The OpenAI spec built for one MCP tool (client.py lines 186-193). -/
def openai_tool_of (tool : MCPTool) : OpenAITool :=
  { type := "function",
    function :=
      { name := tool.name,
        description := py_or tool.description no_description_placeholder,
        parameters := tool.inputSchema } }

/-- `convert_mcp_tools_to_openai` (client.py lines 172-196): the
accumulate-by-append loop over the tool list. -/
def convert_mcp_tools_to_openai (mcp_tools : List MCPTool) : List OpenAITool :=
  mcp_tools.foldl (fun openai_tools tool => openai_tools ++ [openai_tool_of tool]) []

/-! ### Session shell (client.py lines 21-97 and 199-207) -/

/-- The system prompt installed at session start (client.py lines 55-65). -/
def system_prompt : String :=
  "Ты полезный ассистент, который помогает пользователям узнать погоду в любом городе. У тебя есть доступ к инструментам для получения текущей погоды и прогноза. Всегда отвечай на русском языке."

/-- The initial conversation history (client.py lines 55-65). -/
def init_messages : List Turn :=
  [{ role := .system, content := some system_prompt, tool_calls := [],
     tool_call_id := none }]

/-- The exit keywords checked at client.py line 76. -/
def exit_keywords : List String := ["выход", "exit", "quit", "q"]

/-- Python `str.strip()`: remove leading and trailing whitespace. -/
def py_strip (s : String) : String :=
  ⟨((s.data.dropWhile Char.isWhitespace).reverse.dropWhile Char.isWhitespace).reverse⟩

/-- Python `str.lower()`: lowercase every character. -/
def py_lower (s : String) : String := ⟨s.data.map Char.toLower⟩

/-- The user turn appended at client.py lines 84-87. -/
def user_turn (user_input : String) : Turn :=
  { role := .user, content := some user_input, tool_calls := [],
    tool_call_id := none }

/-- The `while True` REPL of `main` (client.py lines 71-97), consuming a
list of user inputs.  Collects the assistant's final responses in order;
an exception raised by `process_conversation` propagates out of the loop
(there is no `try` inside `main`), carrying the responses printed so far. -/
def main_loop (o : Oracle) :
    List String → List Turn → List String → Except (String × List String) (List String)
  | [], _, outputs => .ok outputs
  | raw :: rest, messages, outputs =>
      let user_input := py_strip raw
      if py_lower user_input ∈ exit_keywords then .ok outputs
      else if user_input = "" then main_loop o rest messages outputs
      else
        match process_conversation o (messages ++ [user_turn user_input]) with
        | .error (e, _) => .error (e, outputs)
        | .ok (final_response, messages) =>
            main_loop o rest messages (outputs ++ [final_response])

/-- The `__main__` guard (client.py lines 199-207): runs the session and
catches any exception escaping it, reporting it as a printed error line
instead of an unhandled crash.  Returns everything printed for the user:
the assistant responses, followed by the error report when one occurred. -/
def run_client (o : Oracle) (inputs : List String) : List String :=
  match main_loop o inputs init_messages [] with
  | .ok outputs => outputs
  | .error (e, outputs) => outputs ++ ["❌ Ошибка: " ++ e]

/-! ### Forecast request construction (server.py lines 133-156) -/

/-- The query parameters `get_forecast` sends to the weather API
(before `make_weather_request` adds the credentials and language). -/
structure ForecastParams where
  q : String
  units : String
  cnt : Int
deriving DecidableEq, Repr

/-- The parameter construction of `get_forecast` (server.py lines 146-156):
`days = min(max(days, 1), 5)` then `cnt = days * 8`. -/
def forecast_request_params (city : String) (days : Int) (units : String) :
    ForecastParams :=
  let days := min (max days 1) 5
  { q := city, units := units, cnt := days * 8 }

/-! ### Helper notions and lemmas -/

/-- The arguments a tool call's payload parses to (meaningful when the
parse succeeds). -/
def parsed_args (o : Oracle) (tc : ToolCall) : Args :=
  match o.json_loads tc.function.arguments with
  | .ok a => a
  | .error _ => []

/-- The tool turn the loop records for one tool call whose payload parses. -/
def tool_turn_of (o : Oracle) (tc : ToolCall) : Turn :=
  tool_turn tc.id (tool_outcome o tc.function.name (parsed_args o tc))

/-! ### Concrete instances used to witness the theorems -/

/-- A demo tool call as the model would emit it. -/
def demo_tc : ToolCall :=
  { id := "call_1",
    function := { name := "get_current_weather", arguments := "\x7b\"city\": \"Москва\"\x7d" } }

/-- A second demo tool call with a distinct id. -/
def demo_tc2 : ToolCall :=
  { id := "call_2", function := { name := "get_forecast", arguments := "\x7b\x7d" } }

/-- An assistant message that requests one tool call and carries no content. -/
def demo_req_am : AssistantMessage := { content := none, tool_calls := [demo_tc] }

/-- An oracle whose model requests a tool call at every query, with a tool
provider that always succeeds and a parser that always succeeds. -/
def demo_oracle : Oracle :=
  { model := fun _ _ => .ok demo_req_am,
    call_tool := fun _ _ => .ok { content := [{ text := "Sunny" }] },
    json_loads := fun _ => .ok [] }

/-- `demo_oracle` with a model that misbehaves from the sixth query on. -/
def demo_oracle_variant : Oracle :=
  { model := fun i m => if i < 5 then demo_oracle.model i m else .error "sixth query",
    call_tool := demo_oracle.call_tool,
    json_loads := demo_oracle.json_loads }

/-- An oracle whose argument parser always fails, as `json.loads` does on a
malformed payload. -/
def c2_oracle : Oracle :=
  { model := fun _ _ => .ok demo_req_am,
    call_tool := fun _ _ => .ok { content := [{ text := "Sunny" }] },
    json_loads := fun _ => .error "Expecting value: line 1 column 1 (char 0)" }

/-- A tool provider distinguishing a failing, an empty-result and a
successful tool. -/
def c3_oracle : Oracle :=
  { model := fun _ _ => .ok demo_req_am,
    call_tool := fun nm _ =>
      if nm = "fail" then .error "boom"
      else if nm = "empty" then .ok { content := [] }
      else .ok { content := [{ text := "Sunny, 21°C" }] },
    json_loads := fun _ => .ok [] }

/-- A tool call naming a tool whose invocation fails. -/
def c4_tc_bad : ToolCall :=
  { id := "call_a", function := { name := "bad", arguments := "\x7b\x7d" } }

/-- A tool call naming a tool whose invocation succeeds. -/
def c4_tc_good : ToolCall :=
  { id := "call_b", function := { name := "get_forecast", arguments := "\x7b\x7d" } }

/-- A tool provider failing on tool `bad` only. -/
def c4_oracle : Oracle :=
  { model := fun _ _ => .ok { content := none, tool_calls := [c4_tc_bad, c4_tc_good] },
    call_tool := fun nm _ =>
      if nm = "bad" then .error "network down" else .ok { content := [{ text := "42" }] },
    json_loads := fun _ => .ok [] }

/-- An assistant message requesting two tool calls with distinct ids. -/
def c5_am : AssistantMessage := { content := none, tool_calls := [demo_tc, demo_tc2] }

/-- An oracle whose model emits `c5_am`. -/
def c5_oracle : Oracle :=
  { model := fun _ _ => .ok c5_am,
    call_tool := fun _ _ => .ok { content := [{ text := "ok" }] },
    json_loads := fun _ => .ok [] }

/-- A model provider that fails unless the last turn is the user turn `b`. -/
def c7_oracle : Oracle :=
  { model := fun _ msgs =>
      if msgs.getLast? = some (user_turn "b") then .ok { content := some "Ответ про b", tool_calls := [] }
      else .error "APIConnectionError",
    call_tool := fun _ _ => .ok { content := [] },
    json_loads := fun _ => .ok [] }

/-- A model provider that always fails. -/
def c7_fail_oracle : Oracle :=
  { model := fun _ _ => .error "APITimeoutError",
    call_tool := fun _ _ => .ok { content := [] },
    json_loads := fun _ => .ok [] }

/-- A model that immediately answers with no content and no tool calls. -/
def c8_oracle : Oracle :=
  { model := fun _ _ => .ok { content := none, tool_calls := [] },
    call_tool := fun _ _ => .ok { content := [] },
    json_loads := fun _ => .ok [] }

/-- A model that immediately answers with non-empty content. -/
def c9_oracle : Oracle :=
  { model := fun _ _ => .ok { content := some "Солнечно, +21°C", tool_calls := [] },
    call_tool := fun _ _ => .ok { content := [] },
    json_loads := fun _ => .ok [] }

/-- A demo tool catalog: one fully described tool, one without description. -/
def demo_catalog : List MCPTool :=
  [{ name := "get_current_weather", description := some "Получить текущую погоду",
     inputSchema := "schema_weather" },
   { name := "get_forecast", description := none, inputSchema := "schema_forecast" }]

lemma process_tool_calls_eq_map (o : Oracle) (tcs : List ToolCall) (msgs : List Turn)
    (h : ∀ tc ∈ tcs, ∃ a, o.json_loads tc.function.arguments = .ok a) :
    process_tool_calls o tcs msgs = .ok (msgs ++ tcs.map (tool_turn_of o)) := by
  induction tcs generalizing msgs with
  | nil => simp [process_tool_calls]
  | cons tc rest ih =>
      obtain ⟨a, ha⟩ := h tc (List.mem_cons_self _ _)
      have hrest : ∀ tc ∈ rest, ∃ a, o.json_loads tc.function.arguments = .ok a :=
        fun tc htc => h tc (List.mem_cons_of_mem _ htc)
      simp only [process_tool_calls, ha]
      rw [ih _ hrest]
      simp [tool_turn_of, parsed_args, ha, List.append_assoc]

lemma tool_outcome_congr (o o' : Oracle) (hc : o.call_tool = o'.call_tool) :
    tool_outcome o = tool_outcome o' := by
  funext name args
  simp [tool_outcome, hc]

lemma process_tool_calls_congr (o o' : Oracle) (hc : o.call_tool = o'.call_tool)
    (hj : o.json_loads = o'.json_loads) (tcs : List ToolCall) (msgs : List Turn) :
    process_tool_calls o tcs msgs = process_tool_calls o' tcs msgs := by
  induction tcs generalizing msgs with
  | nil => rfl
  | cons tc rest ih =>
      simp only [process_tool_calls, hj, tool_outcome_congr o o' hc]
      cases o'.json_loads tc.function.arguments with
      | error e => rfl
      | ok a => exact ih _

lemma conversation_loop_congr (o o' : Oracle) (hc : o.call_tool = o'.call_tool)
    (hj : o.json_loads = o'.json_loads) :
    ∀ fuel iteration msgs,
      (∀ i, iteration ≤ i → i < iteration + fuel → o.model i = o'.model i) →
      conversation_loop o fuel iteration msgs = conversation_loop o' fuel iteration msgs := by
  intro fuel
  induction fuel with
  | zero => intro iteration msgs _; rfl
  | succ fuel ih =>
      intro iteration msgs hag
      have hm : o.model iteration = o'.model iteration := hag iteration le_rfl (by omega)
      simp only [conversation_loop, hm]
      cases o'.model iteration msgs with
      | error e => rfl
      | ok am =>
          by_cases hempty : am.tool_calls.isEmpty <;>
            simp only [hempty, if_true, if_false]
          rw [process_tool_calls_congr o o' hc hj]
          cases process_tool_calls o' am.tool_calls _ with
          | error em => rfl
          | ok msgs' => exact ih (iteration + 1) msgs' (fun i h1 h2 => hag i (by omega) (by omega))

lemma conversation_loop_succ (o : Oracle) (fuel iteration : Nat) (msgs : List Turn) :
    conversation_loop o (fuel + 1) iteration msgs =
      match o.model iteration msgs with
      | .error e => .error (e, msgs)
      | .ok assistant_message =>
          let msgs := msgs ++ [assistant_turn assistant_message]
          if assistant_message.tool_calls.isEmpty then
            .ok (py_or assistant_message.content no_response_fallback, msgs)
          else
            match process_tool_calls o assistant_message.tool_calls msgs with
            | .error em => .error em
            | .ok msgs => conversation_loop o fuel (iteration + 1) msgs := rfl

lemma process_conversation_eq (o : Oracle) (msgs : List Turn) :
    process_conversation o msgs = conversation_loop o (4 + 1) 0 msgs := rfl

lemma conversation_loop_timeout (o : Oracle)
    (hreq : ∀ i msgs, ∃ am, o.model i msgs = .ok am ∧ am.tool_calls ≠ [])
    (hparse : ∀ s, ∃ a, o.json_loads s = .ok a) :
    ∀ fuel iteration msgs, ∃ final,
      conversation_loop o fuel iteration msgs = .ok (too_long_fallback, final) := by
  intro fuel
  induction fuel with
  | zero => intro iteration msgs; exact ⟨msgs, rfl⟩
  | succ fuel ih =>
      intro iteration msgs
      obtain ⟨am, ham, hne⟩ := hreq iteration msgs
      have hempty : am.tool_calls.isEmpty = false := by
        simpa [List.isEmpty_iff] using hne
      simp only [conversation_loop, ham, hempty, Bool.false_eq_true, if_false]
      rw [process_tool_calls_eq_map o _ _ (fun tc _ => hparse tc.function.arguments)]
      exact ih (iteration + 1) _

lemma process_tool_calls_prefix_error (o : Oracle) (pre : List ToolCall) (tc : ToolCall)
    (rest : List ToolCall) (msgs : List Turn) (e : String)
    (hpre : ∀ tc' ∈ pre, ∃ a, o.json_loads tc'.function.arguments = .ok a)
    (hp : o.json_loads tc.function.arguments = .error e) :
    process_tool_calls o (pre ++ tc :: rest) msgs =
      .error (e, msgs ++ pre.map (tool_turn_of o)) := by
  induction pre generalizing msgs with
  | nil => simp [process_tool_calls, hp]
  | cons tc' pre ih =>
      obtain ⟨a, ha⟩ := hpre tc' (List.mem_cons_self _ _)
      simp only [List.cons_append, process_tool_calls, ha, List.append_eq]
      rw [ih _ (fun x hx => hpre x (List.mem_cons_of_mem _ hx))]
      simp [tool_turn_of, parsed_args, ha, List.append_assoc]

/-- C1: a run of `process_conversation` performs at most `max_iterations`
(= 5) model-query cycles: first, when the model requests tools at every
query and all payloads parse, the run terminates with the fixed timeout
fallback; second, the run's outcome depends only on the model's behavior at
query indices below `max_iterations` — no 6th model query is ever issued. -/
theorem c1_iteration_budget (o o' : Oracle) (msgs : List Turn) :
    ((∀ i msgs', ∃ am, o.model i msgs' = .ok am ∧ am.tool_calls ≠ []) →
      (∀ s, ∃ a, o.json_loads s = .ok a) →
      ∃ final, process_conversation o msgs = .ok (too_long_fallback, final)) ∧
    ((∀ i, i < max_iterations → o.model i = o'.model i) →
      o.call_tool = o'.call_tool → o.json_loads = o'.json_loads →
      process_conversation o msgs = process_conversation o' msgs) := by
  constructor
  · intro hreq hparse
    exact conversation_loop_timeout o hreq hparse max_iterations 0 msgs
  · intro hag hc hj
    exact conversation_loop_congr o o' hc hj max_iterations 0 msgs
      (fun i _ h2 => hag i (by simpa using h2))

/-- Witness for C1 at the demo oracle: the budget path is reached and the
outcome agrees with an oracle that differs only from the 6th query on. -/
theorem c1_iteration_budget_witness :
    (∃ final, process_conversation demo_oracle [] = .ok (too_long_fallback, final)) ∧
    process_conversation demo_oracle [] = process_conversation demo_oracle_variant [] := by
  have h := c1_iteration_budget demo_oracle demo_oracle_variant []
  refine ⟨h.1 (fun i m => ⟨demo_req_am, rfl, by simp [demo_req_am]⟩) (fun s => ⟨[], rfl⟩), ?_⟩
  refine h.2 (fun i hi => ?_) rfl rfl
  have hi5 : i < 5 := by simpa [max_iterations] using hi
  funext m
  simp [demo_oracle_variant, hi5]

/-- C2 counterexample: at an oracle whose argument parser fails (as
`json.loads` does on a malformed payload), the loop raises: the run ends on
the exceptional channel, with no Failure tool turn recorded — it is not an
ordinary `.ok` outcome as the claim requires. -/
theorem c2_counterexample :
    process_conversation c2_oracle [] =
      .error ("Expecting value: line 1 column 1 (char 0)", [assistant_turn demo_req_am]) ∧
    ¬ ∃ ans final, process_conversation c2_oracle [] = .ok (ans, final) := by
  have h0 : process_conversation c2_oracle [] =
      .error ("Expecting value: line 1 column 1 (char 0)", [assistant_turn demo_req_am]) := rfl
  refine ⟨h0, ?_⟩
  rintro ⟨ans, final, h⟩
  rw [h0] at h
  exact Except.noConfusion h

/-- C2 amended: a tool-call argument payload that fails to parse is NOT
reduced to a Failure tool turn — `json.loads` runs outside the `try` block,
so the parse exception propagates out of the loop, aborting the failed call
and all remaining calls of the turn; only the already-processed calls'
turns are in the log carried by the exception. -/
theorem c2_parse_failure_raises (o : Oracle) (msgs : List Turn) (am : AssistantMessage)
    (pre : List ToolCall) (tc : ToolCall) (rest : List ToolCall) (e : String)
    (hm : o.model 0 msgs = .ok am) (htc : am.tool_calls = pre ++ tc :: rest)
    (hpre : ∀ tc' ∈ pre, ∃ a, o.json_loads tc'.function.arguments = .ok a)
    (hp : o.json_loads tc.function.arguments = .error e) :
    process_conversation o msgs =
      .error (e, (msgs ++ [assistant_turn am]) ++ pre.map (tool_turn_of o)) := by
  rw [process_conversation_eq, conversation_loop_succ, hm]
  have hne : am.tool_calls.isEmpty = false := by
    simp [htc]
  simp only [hne, Bool.false_eq_true, if_false]
  rw [htc, process_tool_calls_prefix_error o pre tc rest _ e hpre hp]

/-- Witness for the amended C2 at the concrete failing parser. -/
theorem c2_parse_failure_raises_witness :
    process_conversation c2_oracle [] =
      .error ("Expecting value: line 1 column 1 (char 0)",
        (([] : List Turn) ++ [assistant_turn demo_req_am]) ++
          List.map (tool_turn_of c2_oracle) []) :=
  c2_parse_failure_raises c2_oracle [] demo_req_am [] demo_tc [] _ rfl rfl
    (fun _ hx => absurd hx (List.not_mem_nil _)) rfl

/-- C3: the Tool Invoker reduction never propagates a provider error: a
failing `call_tool` reduces to the failure text derived from the error; a
success with at least one content element reduces to the first element's
text; a success with zero elements reduces to the empty-result placeholder;
and in each case the loop records the outcome as a tool turn and continues
(returns `.ok`). -/
theorem c3_invoker_normalization (o : Oracle) (name : String) (args : Args) :
    (∀ e, o.call_tool name args = .error e → tool_outcome o name args = tool_error_text e) ∧
    (∀ r c cs, o.call_tool name args = .ok r → r.content = c :: cs →
      tool_outcome o name args = c.text) ∧
    (∀ r, o.call_tool name args = .ok r → r.content = [] →
      tool_outcome o name args = empty_result_text) ∧
    (∀ tc msgs, tc.function.name = name → o.json_loads tc.function.arguments = .ok args →
      process_tool_calls o [tc] msgs =
        .ok (msgs ++ [tool_turn tc.id (tool_outcome o name args)])) := by
  refine ⟨fun e he => ?_, fun r c cs hr hc => ?_, fun r hr hc => ?_, fun tc msgs hn hj => ?_⟩
  · simp [tool_outcome, he]
  · simp [tool_outcome, hr, hc]
  · simp [tool_outcome, hr, hc, empty_result_text]
  · simp [process_tool_calls, hj, hn]

/-- Witness for C3: the three reductions and the recorded tool turn at a
concrete provider. -/
theorem c3_invoker_normalization_witness :
    tool_outcome c3_oracle "fail" [] = tool_error_text "boom" ∧
    tool_outcome c3_oracle "get_current_weather" [] = "Sunny, 21°C" ∧
    tool_outcome c3_oracle "empty" [] = empty_result_text ∧
    process_tool_calls c3_oracle [demo_tc] [] =
      .ok ([] ++ [tool_turn demo_tc.id (tool_outcome c3_oracle "get_current_weather" [])]) := by
  refine ⟨(c3_invoker_normalization c3_oracle "fail" []).1 "boom" rfl,
    (c3_invoker_normalization c3_oracle "get_current_weather" []).2.1
      { content := [{ text := "Sunny, 21°C" }] } { text := "Sunny, 21°C" } [] rfl rfl,
    (c3_invoker_normalization c3_oracle "empty" []).2.2.1 { content := [] } rfl rfl,
    (c3_invoker_normalization c3_oracle "get_current_weather" []).2.2.2 demo_tc [] rfl rfl⟩

/-- C4: per-call isolation: whatever subset of the calls fails at the tool
provider (the statement quantifies over every provider `o.call_tool`), all
calls of the turn are executed and exactly one tool turn per call is
recorded, in order. -/
theorem c4_per_call_isolation (o : Oracle) (tcs : List ToolCall) (msgs : List Turn)
    (hparse : ∀ tc ∈ tcs, ∃ a, o.json_loads tc.function.arguments = .ok a) :
    process_tool_calls o tcs msgs = .ok (msgs ++ tcs.map (tool_turn_of o)) ∧
    (msgs ++ tcs.map (tool_turn_of o)).length = msgs.length + tcs.length := by
  exact ⟨process_tool_calls_eq_map o tcs msgs hparse, by simp⟩

/-- Witness for C4: one failing and one succeeding call; both are recorded,
the failing one as a failure text, in request order. -/
theorem c4_per_call_isolation_witness :
    process_tool_calls c4_oracle [c4_tc_bad, c4_tc_good] [] =
      .ok [tool_turn "call_a" (tool_error_text "network down"), tool_turn "call_b" "42"] := by
  have h := (c4_per_call_isolation c4_oracle [c4_tc_bad, c4_tc_good] []
    (fun tc _ => ⟨[], rfl⟩)).1
  simpa [tool_turn_of, parsed_args, tool_outcome, c4_oracle, c4_tc_bad, c4_tc_good]
    using h

/-- C5: the tool turns recorded for one assistant turn carry exactly the
ids of that turn's requests, in the same relative order, each matching
exactly one request (given the model emits distinct ids within the turn);
they are appended immediately after the assistant turn, before the loop
continues. -/
theorem c5_tool_turn_correspondence (o : Oracle) (fuel iteration : Nat)
    (msgs : List Turn) (am : AssistantMessage)
    (hm : o.model iteration msgs = .ok am) (hne : am.tool_calls ≠ [])
    (hparse : ∀ tc ∈ am.tool_calls, ∃ a, o.json_loads tc.function.arguments = .ok a)
    (hnd : (am.tool_calls.map ToolCall.id).Nodup) :
    ∃ outs : List Turn,
      conversation_loop o (fuel + 1) iteration msgs =
        conversation_loop o fuel (iteration + 1) ((msgs ++ [assistant_turn am]) ++ outs) ∧
      outs.map Turn.tool_call_id = am.tool_calls.map (fun tc => some tc.id) ∧
      (∀ t ∈ outs, t.role = .tool) ∧
      (∀ t ∈ outs, ∃ id, t.tool_call_id = some id ∧
        (am.tool_calls.map ToolCall.id).count id = 1) := by
  refine ⟨am.tool_calls.map (tool_turn_of o), ?_, ?_, ?_, ?_⟩
  · rw [conversation_loop_succ, hm]
    have hempty : am.tool_calls.isEmpty = false := by
      simpa [List.isEmpty_iff] using hne
    simp only [hempty, Bool.false_eq_true, if_false]
    rw [process_tool_calls_eq_map o _ _ hparse]
  · simp [tool_turn_of, tool_turn, Function.comp]
  · intro t ht
    obtain ⟨tc, _, rfl⟩ := List.mem_map.mp ht
    simp [tool_turn_of, tool_turn]
  · intro t ht
    obtain ⟨tc, htc, rfl⟩ := List.mem_map.mp ht
    exact ⟨tc.id, by simp [tool_turn_of, tool_turn],
      List.count_eq_one_of_mem hnd (List.mem_map_of_mem _ htc)⟩

/-- Witness for C5: a turn with two tool calls with distinct ids. -/
theorem c5_tool_turn_correspondence_witness :
    ∃ outs : List Turn,
      conversation_loop c5_oracle 1 0 [] =
        conversation_loop c5_oracle 0 1 (([] ++ [assistant_turn c5_am]) ++ outs) ∧
      outs.map Turn.tool_call_id = c5_am.tool_calls.map (fun tc => some tc.id) ∧
      (∀ t ∈ outs, t.role = .tool) ∧
      (∀ t ∈ outs, ∃ id, t.tool_call_id = some id ∧
        (c5_am.tool_calls.map ToolCall.id).count id = 1) :=
  c5_tool_turn_correspondence c5_oracle 0 0 [] c5_am rfl
    (by simp [c5_am]) (fun tc _ => ⟨[], rfl⟩) (by decide)

lemma convert_mcp_tools_to_openai_eq_map (mcp_tools : List MCPTool) :
    convert_mcp_tools_to_openai mcp_tools = mcp_tools.map openai_tool_of := by
  have h : ∀ acc : List OpenAITool,
      mcp_tools.foldl (fun openai_tools tool => openai_tools ++ [openai_tool_of tool]) acc =
        acc ++ mcp_tools.map openai_tool_of := by
    induction mcp_tools with
    | nil => intro acc; simp
    | cons tool rest ih => intro acc; simp [ih, List.append_assoc]
  simpa using h []

/-- C6: the adapter returns one spec per descriptor, preserving each tool's
name and input schema verbatim; a missing description becomes the fixed
placeholder string; no produced description is ever the empty string. -/
theorem c6_adapter_shape (mcp_tools : List MCPTool) :
    (convert_mcp_tools_to_openai mcp_tools).length = mcp_tools.length ∧
    (convert_mcp_tools_to_openai mcp_tools).map (fun t => t.function.name) =
      mcp_tools.map MCPTool.name ∧
    (convert_mcp_tools_to_openai mcp_tools).map (fun t => t.function.parameters) =
      mcp_tools.map MCPTool.inputSchema ∧
    (∀ t ∈ convert_mcp_tools_to_openai mcp_tools, t.function.description ≠ "") ∧
    (∀ i (h : i < mcp_tools.length), (mcp_tools.get ⟨i, h⟩).description = none →
      ∃ h2 : i < (convert_mcp_tools_to_openai mcp_tools).length,
        ((convert_mcp_tools_to_openai mcp_tools).get ⟨i, h2⟩).function.description =
          no_description_placeholder) := by
  rw [convert_mcp_tools_to_openai_eq_map]
  refine ⟨by simp, by simp [openai_tool_of], by simp [openai_tool_of], ?_, ?_⟩
  · intro t ht
    obtain ⟨tool, _, rfl⟩ := List.mem_map.mp ht
    cases hd : tool.description with
    | none => simp [openai_tool_of, py_or, hd, no_description_placeholder]
    | some s =>
        by_cases hs : s = "" <;>
          simp [openai_tool_of, py_or, hd, hs, no_description_placeholder]
  · intro i h hnone
    refine ⟨by simpa using h, ?_⟩
    simp only [List.get_eq_getElem] at hnone ⊢
    simp [openai_tool_of, py_or, hnone]

/-- Witness for C6 at a concrete catalog with a missing description. -/
theorem c6_adapter_shape_witness :
    (convert_mcp_tools_to_openai demo_catalog).length = demo_catalog.length ∧
    (convert_mcp_tools_to_openai demo_catalog).map (fun t => t.function.name) =
      demo_catalog.map MCPTool.name ∧
    (∀ t ∈ convert_mcp_tools_to_openai demo_catalog, t.function.description ≠ "") ∧
    (∃ h2 : 1 < (convert_mcp_tools_to_openai demo_catalog).length,
      ((convert_mcp_tools_to_openai demo_catalog).get ⟨1, h2⟩).function.description =
        no_description_placeholder) := by
  have h := c6_adapter_shape demo_catalog
  exact ⟨h.1, h.2.1, h.2.2.2.1, h.2.2.2.2 1 (by simp [demo_catalog]) (by simp [demo_catalog])⟩

/-- C7 counterexample: with a model provider that fails on the user turn
`a` but would answer the user turn `b`, the session run with inputs
`[a, b, q]` reports the error and ends: the `b` turn is never processed, so
the failure aborts the whole session, not only the current user turn. -/
theorem c7_counterexample :
    run_client c7_oracle ["a", "b", "q"] = ["❌ Ошибка: APIConnectionError"] ∧
    run_client c7_oracle ["b", "q"] = ["Ответ про b"] := by
  constructor <;> rfl

/-- C7 amended: a model-provider failure is propagated out of the loop
unrecovered (the run ends on the exceptional channel), and the shell's
top-level handler catches it and reports it as a printed error line instead
of an unhandled crash — but it terminates the whole session: the remaining
user inputs are never processed. -/
theorem c7_model_failure_aborts_session (o : Oracle) (u : String) (rest : List String)
    (e : String)
    (hu1 : ¬ py_lower (py_strip u) ∈ exit_keywords) (hu2 : py_strip u ≠ "")
    (hm : o.model 0 (init_messages ++ [user_turn (py_strip u)]) = .error e) :
    process_conversation o (init_messages ++ [user_turn (py_strip u)]) =
      .error (e, init_messages ++ [user_turn (py_strip u)]) ∧
    run_client o (u :: rest) = ["❌ Ошибка: " ++ e] := by
  have h1 : process_conversation o (init_messages ++ [user_turn (py_strip u)]) =
      .error (e, init_messages ++ [user_turn (py_strip u)]) := by
    rw [process_conversation_eq, conversation_loop_succ, hm]
  refine ⟨h1, ?_⟩
  simp only [run_client, main_loop, hu1, if_false, hu2, h1]
  simp [hu2]

/-- Witness for the amended C7 at the always-failing model provider. -/
theorem c7_model_failure_aborts_session_witness :
    process_conversation c7_fail_oracle (init_messages ++ [user_turn (py_strip "погода")]) =
      .error ("APITimeoutError", init_messages ++ [user_turn (py_strip "погода")]) ∧
    run_client c7_fail_oracle ["погода", "q"] = ["❌ Ошибка: " ++ "APITimeoutError"] :=
  c7_model_failure_aborts_session c7_fail_oracle "погода" ["q"] "APITimeoutError"
    (by decide) (by decide) rfl

/-- C8: when the model's response carries no tool calls and empty or
absent content, the loop terminates at once and returns the fixed
no-response fallback, which differs from the iteration-budget fallback. -/
theorem c8_empty_content_fallback (o : Oracle) (msgs : List Turn) (am : AssistantMessage)
    (hm : o.model 0 msgs = .ok am) (hnt : am.tool_calls = [])
    (hc : am.content = none ∨ am.content = some "") :
    process_conversation o msgs = .ok (no_response_fallback, msgs ++ [assistant_turn am]) ∧
    no_response_fallback ≠ too_long_fallback := by
  constructor
  · rw [process_conversation_eq, conversation_loop_succ, hm]
    have hpy : py_or am.content no_response_fallback = no_response_fallback := by
      rcases hc with hc | hc <;> simp [py_or, hc]
    simp [hnt, hpy]
  · decide

/-- Witness for C8 at a model that answers with null content. -/
theorem c8_empty_content_fallback_witness :
    process_conversation c8_oracle [] =
      .ok (no_response_fallback,
        [] ++ [assistant_turn { content := none, tool_calls := [] }]) ∧
    no_response_fallback ≠ too_long_fallback :=
  c8_empty_content_fallback c8_oracle [] { content := none, tool_calls := [] }
    rfl rfl (Or.inl rfl)

/-- C9: when the model's first response carries non-empty content and no
tool calls, the loop returns that content unchanged, appends exactly one
assistant turn to the log and appends zero tool turns. -/
theorem c9_direct_answer (o : Oracle) (msgs : List Turn) (am : AssistantMessage)
    (c : String) (hm : o.model 0 msgs = .ok am) (hnt : am.tool_calls = [])
    (hc : am.content = some c) (hne : c ≠ "") :
    process_conversation o msgs = .ok (c, msgs ++ [assistant_turn am]) ∧
    (msgs ++ [assistant_turn am]).countP (fun t => t.role == Role.assistant) =
      msgs.countP (fun t => t.role == Role.assistant) + 1 ∧
    (msgs ++ [assistant_turn am]).countP (fun t => t.role == Role.tool) =
      msgs.countP (fun t => t.role == Role.tool) := by
  refine ⟨?_, ?_, ?_⟩
  · rw [process_conversation_eq, conversation_loop_succ, hm]
    simp [hnt, py_or, hc, hne]
  · simp [List.countP_append, assistant_turn, List.countP_cons]
  · simp [List.countP_append, assistant_turn, List.countP_cons]

/-- Witness for C9 at a model that answers directly. -/
theorem c9_direct_answer_witness :
    process_conversation c9_oracle [] =
      .ok ("Солнечно, +21°C",
        [] ++ [assistant_turn { content := some "Солнечно, +21°C", tool_calls := [] }]) ∧
    (([] : List Turn) ++
        [assistant_turn { content := some "Солнечно, +21°C", tool_calls := [] }]).countP
        (fun t => t.role == Role.assistant) =
      ([] : List Turn).countP (fun t => t.role == Role.assistant) + 1 ∧
    (([] : List Turn) ++
        [assistant_turn { content := some "Солнечно, +21°C", tool_calls := [] }]).countP
        (fun t => t.role == Role.tool) =
      ([] : List Turn).countP (fun t => t.role == Role.tool) :=
  c9_direct_answer c9_oracle [] { content := some "Солнечно, +21°C", tool_calls := [] }
    "Солнечно, +21°C" rfl rfl rfl (by decide)

/-- C10: `get_forecast` clamps the `days` argument into the inclusive
range 1..5 and requests `cnt = clamped_days * 8` three-hour records, while
the city and units are passed through: the built request always carries a
`cnt` of the form `d * 8` with `1 ≤ d ≤ 5`, `d` agreeing with `days` when
it is already in range and saturating at the ends otherwise. -/
theorem c10_forecast_clamp (city : String) (days : Int) (units : String) :
    ∃ d : Int, 1 ≤ d ∧ d ≤ 5 ∧
      forecast_request_params city days units = { q := city, units := units, cnt := d * 8 } ∧
      (1 ≤ days → days ≤ 5 → d = days) ∧
      (days < 1 → d = 1) ∧ (5 < days → d = 5) := by
  refine ⟨min (max days 1) 5, ?_, ?_, rfl, ?_, ?_, ?_⟩ <;> omega

/-- Witness for C10 at an out-of-range request of 9 days: the request is
clamped to 5 days, i.e. 40 records. -/
theorem c10_forecast_clamp_witness :
    forecast_request_params "Москва" 9 "metric" =
      { q := "Москва", units := "metric", cnt := (5 : Int) * 8 } := by
  obtain ⟨d, _, _, heq, _, _, h5⟩ := c10_forecast_clamp "Москва" 9 "metric"
  rw [h5 (by norm_num)] at heq
  exact heq
